import Mathlib

/-!
Shallow embedding of the Market-Agent MCP tool server (src/1.py).

External providers (Firecrawl scraping, the YouTube transcript API, yt_dlp
search, the ScrapingDog HTTP endpoint and the NVIDIA chat model) are modelled
as function parameters returning `Except String _`, where `Except.error e`
stands for a raised exception carrying message `e`.  A tool operation returning
`Except.error e` therefore models an exception propagating past the tool
boundary, while `Except.ok s` models the tool returning the string `s`.
-/

namespace MarketAgent

/-- The ASCII whitespace characters removed by Python `str.strip()`. -/
def isPyWs (c : Char) : Bool :=
  c = ' ' || c = '\t' || c = '\n' || c = '\r' || c = Char.ofNat 11 || c = Char.ofNat 12

/-- Python `s.strip()` on a character list. -/
def pyStripChars (cs : List Char) : List Char :=
  ((cs.dropWhile isPyWs).reverse.dropWhile isPyWs).reverse

/-- Python `s.strip()`. -/
def pyStrip (s : String) : String :=
  String.mk (pyStripChars s.data)

/-- Python `s.startswith(p)` structurally on character lists
    (first argument the string, second the pattern). -/
def startsWithChars : List Char → List Char → Bool
  | _, [] => true
  | [], _ :: _ => false
  | c :: cs, p :: ps => c = p && startsWithChars cs ps

/-- Python `s.startswith(p)`. -/
def pyStartswith (s p : String) : Bool :=
  startsWithChars s.data p.data

/-- Python `"sep".join(pieces)` on character lists. -/
def joinSep (sep : List Char) : List (List Char) → List Char
  | [] => []
  | [x] => x
  | x :: y :: ys => x ++ sep ++ joinSep sep (y :: ys)

/-! ## Video id extraction (src/1.py lines 77-79)

`extract_video_id` applies `re.search` with the pattern
`(?:v=|\/)([0-9A-Za-z_-]{11})` and returns the captured group, or `None`
when there is no match. -/

/-- The character class `[0-9A-Za-z_-]` of the video-id pattern. -/
def isIdChar (c : Char) : Bool :=
  c.isAlphanum || c = '_' || c = '-'

/-- Match exactly `n` characters of the id class (the `{n}` quantifier),
    returning them; `none` when a character fails the class or input ends. -/
def grab : Nat → List Char → Option (List Char)
  | 0, _ => some []
  | _ + 1, [] => none
  | n + 1, c :: cs => if isIdChar c then (grab n cs).map (fun t => c :: t) else none

/-- One attempt of the alternation `(?:v=|/)` followed by the 11-character
    group at a fixed position: `c` is the character at the position, `rest`
    everything after it. -/
def tryAt (c : Char) (rest : List Char) : Option (List Char) :=
  if c = 'v' then
    match rest with
    | [] => none
    | p :: rest2 => if p = '=' then grab 11 rest2 else none
  else if c = '/' then grab 11 rest
  else none

/-- `re.search`: scan left to right, returning the first position's match. -/
def findId : List Char → Option (List Char)
  | [] => none
  | c :: rest =>
    match tryAt c rest with
    | some t => some t
    | none => findId rest

/-- src/1.py lines 77-79. -/
def extract_video_id (url : String) : Option String :=
  (findId url.data).map (fun cs => String.mk cs)

/-! ## Transcript retrieval (src/1.py lines 81-86)

`get_transcript_text` calls `YouTubeTranscriptApi.get_transcript(video_id)`
inside a `try`, joins the fragments' `"text"` fields with newlines and strips
the result; on any exception it returns the `"[!] ..."` message carrying the
exception text. -/

/-- One caption fragment as returned by the transcript API; `text` is the
    optional `"text"` field of the fragment dict (`t.get("text", "")`). -/
structure Frag where
  text : Option String

/-- `YouTubeTranscriptApi.get_transcript` as an abstract provider: a fragment
    list, or a raised exception message. -/
abbrev TranscriptProvider := String → Except String (List Frag)

/-- src/1.py lines 81-86. -/
def get_transcript_text (tp : TranscriptProvider) (video_id : String) : String :=
  match tp video_id with
  | Except.ok transcript =>
      String.mk (pyStripChars (joinSep ['\n'] (transcript.map (fun t => (t.text.getD "").data))))
  | Except.error e => "[!] Transcript not available.\nReason: " ++ e

/-! ## Conversation chain (src/1.py lines 88-97)

`ConversationChain` with a `ConversationBufferMemory`: each `apredict` call
sends the buffered history and the new input to the model, appends the
`(input, response)` turn to the memory and returns the response. -/

/-- The chat-model provider behind `ConversationChain`: from the buffered
    history and the new input, a response or a raised exception message. -/
abbrev LLMFun := List (String × String) → String → Except String String

/-- A `ConversationChain` value: the model and the buffered turns. -/
structure Chain where
  llm : LLMFun
  memory : List (String × String)

/-- `chain.apredict(input=...)`: invoke the model on the history and input,
    record the turn, return the response. -/
def Chain.apredict (c : Chain) (input : String) : Except String (String × Chain) :=
  match c.llm c.memory input with
  | Except.error e => Except.error e
  | Except.ok resp => Except.ok (resp, { c with memory := c.memory ++ [(input, resp)] })

/-- The priming turn submitted by `get_llm_chain` (src/1.py line 96). -/
def priming_input (transcript : String) : String :=
  "This is the transcript of a YouTube video:\n\n" ++ transcript ++
    "\n\nNow I'll ask you questions about it."

/-- src/1.py lines 88-97: build the chain, submit the priming turn, discard
    its response, return the primed chain. -/
def get_llm_chain (llm : LLMFun) (transcript : String) : Except String Chain :=
  match Chain.apredict { llm := llm, memory := [] } (priming_input transcript) with
  | Except.error e => Except.error e
  | Except.ok (_, c1) => Except.ok c1

/-- The analysis step of `ask_youtube_question` (src/1.py lines 116-117):
    prime the chain with the transcript, then answer the question. -/
def answer_about (llm : LLMFun) (transcript question : String) : Except String String :=
  match get_llm_chain llm transcript with
  | Except.error e => Except.error e
  | Except.ok chain =>
    match Chain.apredict chain question with
    | Except.error e => Except.error e
    | Except.ok (resp, _) => Except.ok resp

/-! ## Video search (src/1.py lines 60-75) -/

/-- One yt_dlp search entry (the fields `scrap_videos` reads). -/
structure SearchEntry where
  id : String
  title : String

/-- `yt_dlp` search as an abstract provider: the entry list, or a raised
    exception message. -/
abbrev SearchProvider := String → Except String (List SearchEntry)

/-- The video dict built by `scrap_videos` / `ask_youtube_question`. -/
structure Video where
  title : String
  url : String
  video_id : String

/-- src/1.py lines 60-75 (`max_results` defaults to 1 at the call site). -/
def scrap_videos (search : SearchProvider) (query : String) (max_results : Nat) :
    Except String (List Video) :=
  match search query with
  | Except.error e => Except.error e
  | Except.ok entries =>
      Except.ok ((entries.take max_results).map (fun v =>
        { title := v.title
          url := "https://www.youtube.com/watch?v=" ++ v.id
          video_id := v.id }))

/-! ## ask_youtube_question (src/1.py lines 100-117) -/

/-- src/1.py lines 112-117: fetch the transcript for the chosen video; if it
    starts with "[!]" return it as-is, otherwise run the analysis step. -/
def answer_with_video (tp : TranscriptProvider) (llm : LLMFun) (video : Video)
    (question : String) : Except String String :=
  let transcript := get_transcript_text tp video.video_id
  if pyStartswith transcript "[!]" then Except.ok transcript
  else answer_about llm transcript question

/-- src/1.py lines 100-117. -/
def ask_youtube_question (search : SearchProvider) (tp : TranscriptProvider) (llm : LLMFun)
    (video_url_or_query question : String) : Except String String :=
  if pyStartswith video_url_or_query "http" then
    match extract_video_id video_url_or_query with
    | none => Except.ok "[!] Could not extract video ID from URL."
    | some vid =>
        answer_with_video tp llm
          { video_id := vid, url := video_url_or_query, title := "YouTube_Transcript" } question
  else
    match scrap_videos search video_url_or_query 1 with
    | Except.error e => Except.error e
    | Except.ok [] => Except.ok "[!] No video found."
    | Except.ok (v :: _) => answer_with_video tp llm v question

/-! ## analyze_website (src/1.py lines 31-56)

No `try`/`except`: an exception from the scraping provider or the model call
propagates past the tool boundary (modelled as `Except.error`). -/

/-- The Firecrawl scrape as an abstract provider. -/
abbrev ScrapeProvider := String → Except String String

/-- A single-shot `prompt | llm | StrOutputParser()` invocation as an
    abstract provider: from the rendered prompt, the response text or a
    raised exception message. -/
abbrev PromptLLM := String → Except String String

/-- The template of `analyze_website` (src/1.py lines 43-53) with the
    `context` and `question` slots substituted. -/
def website_prompt (context question : String) : String :=
  "\n        You are an experienced market analyst. Based on the content of the website below, answer the following question.\n\n        Website Content:\n        "
    ++ context ++ "\n\n        Question: " ++ question ++ "\n        "

/-- src/1.py lines 31-56. -/
def analyze_website (scrape : ScrapeProvider) (llm : PromptLLM) (url question : String) :
    Except String String :=
  match scrape url with
  | Except.error e => Except.error e
  | Except.ok context => llm (website_prompt context question)

/-! ## analyze_linkedin (src/1.py lines 121-161) -/

/-- Scan to the first `"://"` and return what follows, if any
    (helper for the `urlparse(...).path` model). -/
def afterScheme : List Char → Option (List Char)
  | [] => none
  | ':' :: '/' :: '/' :: rest => some rest
  | _ :: rest => afterScheme rest

/-- `urllib.parse.urlparse(link).path` modelled for the http(s) URLs this
    tool receives: drop the scheme and network-location part, keep the path,
    cut at a query or fragment delimiter.  A link with no `"://"` is all
    path, as in `urlparse`. -/
def urlPathChars (link : List Char) : List Char :=
  (match afterScheme link with
   | none => link
   | some rest => rest.dropWhile (fun c => !(c = '/'))
  ).takeWhile (fun c => !(c = '?' || c = '#'))

/-- Python `path.strip("/")` on character lists. -/
def stripSlashes (cs : List Char) : List Char :=
  ((cs.dropWhile (fun c => c = '/')).reverse.dropWhile (fun c => c = '/')).reverse

/-- Python `s.split("/")` on character lists. -/
def splitSlash : List Char → List (List Char)
  | [] => [[]]
  | '/' :: rest => [] :: splitSlash rest
  | c :: rest =>
    match splitSlash rest with
    | [] => [[c]]
    | p :: ps => (c :: p) :: ps

/-- src/1.py lines 128-129: `urlparse(link).path.strip("/").split("/")`. -/
def pathParts (link : String) : List String :=
  (splitSlash (stripSlashes (urlPathChars link.data))).map String.mk

/-- The query parameters `analyze_linkedin` sends to the profile-data
    provider (src/1.py lines 147-152). -/
structure LinkedinParams where
  api_key : String
  reqType : String
  linkId : String
  privateFlag : String

/-- The ScrapingDog HTTP GET as an abstract provider: `(status_code, body)`
    where `body` stands for the (parsed) response payload rendering, or a
    raised exception message. -/
abbrev HttpProvider := LinkedinParams → Except String (Nat × String)

/-- src/1.py lines 128-144: classify the link path.  `Except.error` carries
    the early-returned error string; `Except.ok` the
    `(request_type, link_id, is_private)` triple. -/
def resolveLinkedin (link : String) : Except String (String × String × String) :=
  match pathParts link with
  | link_type :: link_id :: _ =>
    if link_type = "company" then Except.ok ("company", link_id, "false")
    else if link_type = "in" then Except.ok ("profile", link_id, "true")
    else Except.error "Unsupported LinkedIn link type."
  | _ => Except.error "Invalid LinkedIn URL."

/-- src/1.py lines 121-161.  The api key is checked before anything else;
    the classified parameters are sent to the HTTP provider; a 200 status
    yields the success rendering of the payload, any other status the
    failure string carrying status and body. -/
def analyze_linkedin (apiKey : Option String) (http : HttpProvider) (link : String) :
    Except String String :=
  match apiKey with
  | none => Except.ok "API key not found. Please check your .env file."
  | some key =>
    match resolveLinkedin link with
    | Except.error msg => Except.ok msg
    | Except.ok (request_type, link_id, is_private) =>
      match http { api_key := key, reqType := request_type,
                   linkId := link_id, privateFlag := is_private } with
      | Except.error e => Except.error e
      | Except.ok (status, body) =>
        if status = 200 then Except.ok ("LinkedIn Data:\n\n" ++ body)
        else Except.ok ("Request failed. Status: " ++ toString status ++ ", Message: " ++ body)

/-! ## structured_tool (src/1.py lines 164-192)

The whole body is inside `try`/`except Exception`, so every provider
exception is caught and rendered as an in-band error string. -/

/-- The template of `structured_tool` (src/1.py lines 176-186) with the
    `input_data` slot substituted. -/
def structured_prompt (input_data : String) : String :=
  "\n            You are a data processing agent. Your task is to process the following input data and return a well-formatted, structured response in markdown format.\n            \n            Input Data:\n            "
    ++ input_data ++
    "\n            \n            Please analyze the content and structure your response with appropriate sections, headings, bullet points, and summaries.\n            "

/-- src/1.py lines 164-192. -/
def structured_tool (llm : PromptLLM) (input_data : String) : Except String String :=
  match llm (structured_prompt input_data) with
  | Except.ok result => Except.ok result
  | Except.error e => Except.ok ("Error processing data: " ++ e)

/-! ## Certificates for the left-to-right regex scan

`badWithin n cs` certifies that `grab n` fails on `cs ++ tail` for every
`tail`: a character outside the id class occurs among the first `n`
characters of `cs`.  `tryBad` and `cleanPre` lift this to `tryAt` and to a
whole prefix of the scanned list. -/

/-- Within the first `n` characters of `cs` some character fails the id
    class (so failure does not depend on what follows `cs`). -/
def badWithin : Nat → List Char → Bool
  | 0, _ => false
  | _ + 1, [] => false
  | n + 1, c :: cs => !isIdChar c || badWithin n cs

/-- `tryAt c (pre ++ tail) = none` for every `tail`, certified from `c` and
    `pre` alone. -/
def tryBad (c : Char) (pre : List Char) : Bool :=
  if c = 'v' then
    match pre with
    | [] => false
    | p :: pre2 => if p = '=' then badWithin 11 pre2 else true
  else if c = '/' then badWithin 11 pre
  else true

/-- Every position of `pre` fails `tryAt` regardless of what follows `pre`. -/
def cleanPre : List Char → Bool
  | [] => true
  | c :: rest => tryBad c rest && cleanPre rest

end MarketAgent

namespace MarketAgent

/-! ## Helper lemmas about the regex scan -/

/-- `grab n` takes exactly the leading `n` id-class characters, independent
    of what follows. -/
theorem grab_exact (n : Nat) (id rest : List Char) (h1 : id.length = n)
    (h2 : id.all isIdChar = true) : grab n (id ++ rest) = some id := by
  induction id generalizing n with
  | nil => subst h1; rfl
  | cons c cs ih =>
    subst h1
    simp only [List.all_cons, Bool.and_eq_true] at h2
    have hrec := ih cs.length rfl h2.2
    simp [List.length_cons, grab, h2.1, hrec]

/-- A `badWithin` certificate makes `grab` fail for every continuation. -/
theorem grab_extend_none (n : Nat) (pre tail : List Char) (h : badWithin n pre = true) :
    grab n (pre ++ tail) = none := by
  induction pre generalizing n with
  | nil => cases n <;> simp [badWithin] at h
  | cons c cs ih =>
    cases n with
    | zero => simp [badWithin] at h
    | succ m =>
      simp only [badWithin, Bool.or_eq_true] at h
      rcases h with h | h
      · have hc : isIdChar c = false := by simpa using h
        simp [grab, hc]
      · simp [grab, ih m h]

/-- A `tryBad` certificate makes `tryAt` fail for every continuation. -/
theorem tryAt_extend (c : Char) (pre tail : List Char) (h : tryBad c pre = true) :
    tryAt c (pre ++ tail) = none := by
  by_cases hv : c = 'v'
  · subst hv
    cases pre with
    | nil => simp [tryBad] at h
    | cons p pre2 =>
      by_cases hp : p = '='
      · subst hp
        simp only [tryBad, if_pos rfl] at h
        simp [tryAt, grab_extend_none 11 pre2 tail h]
      · simp [tryAt, hp]
  · by_cases hs : c = '/'
    · subst hs
      simp only [tryBad, if_neg (by decide : ¬('/' = 'v')), if_pos rfl] at h
      simp [tryAt, grab_extend_none 11 pre tail h]
    · simp [tryAt, hv, hs]

/-- The scan skips over a certified-clean prefix. -/
theorem findId_skip_prefix (pre tail : List Char) (h : cleanPre pre = true) :
    findId (pre ++ tail) = findId tail := by
  induction pre with
  | nil => rfl
  | cons c rest ih =>
    simp only [cleanPre, Bool.and_eq_true] at h
    have h1 := tryAt_extend c rest tail h.1
    simp [findId, List.cons_append, h1, ih h.2]

/-- The scan stops at the first successful position. -/
theorem findId_hit (c : Char) (rest t : List Char) (h : tryAt c rest = some t) :
    findId (c :: rest) = some t := by
  simp [findId, h]

/-! ## Claim theorems -/

/-- Claim C6 (confirmed): for a well-formed video URL carrying an
    11-character id token of the class `[0-9A-Za-z_-]` — the token after the
    `v=` query parameter of a watch URL, or after the path marker of a short
    `youtu.be` URL — `extract_video_id` returns exactly that token, whatever
    follows it. -/
theorem video_id_extraction (id suf : String) (h1 : id.length = 11)
    (h2 : id.data.all isIdChar = true) :
    extract_video_id ("https://www.youtube.com/watch?v=" ++ id ++ suf) = some id ∧
    extract_video_id ("https://youtu.be/" ++ id ++ suf) = some id := by
  have hlen : id.data.length = 11 := h1
  have hg : grab 11 (id.data ++ suf.data) = some id.data :=
    grab_exact 11 id.data suf.data hlen h2
  constructor
  · have hdata : ("https://www.youtube.com/watch?v=" ++ id ++ suf).data =
        "https://www.youtube.com/watch?".data ++ ('v' :: '=' :: (id.data ++ suf.data)) := rfl
    have hv : tryAt 'v' ('=' :: (id.data ++ suf.data)) = some id.data := by
      simpa [tryAt] using hg
    unfold extract_video_id
    rw [hdata, findId_skip_prefix _ _ (by decide), findId_hit 'v' _ _ hv]
    rfl
  · have hdata : ("https://youtu.be/" ++ id ++ suf).data =
        "https://youtu.be".data ++ ('/' :: (id.data ++ suf.data)) := rfl
    have hv : tryAt '/' (id.data ++ suf.data) = some id.data := by
      simpa [tryAt] using hg
    unfold extract_video_id
    rw [hdata, findId_skip_prefix _ _ (by decide), findId_hit '/' _ _ hv]
    rfl

/-- Witness for C6 at the id of the spec's example URL. -/
theorem video_id_extraction_witness :
    ("dQw4w9WgXcQ" : String).length = 11 ∧
    ("dQw4w9WgXcQ" : String).data.all isIdChar = true ∧
    extract_video_id "https://youtu.be/dQw4w9WgXcQ" = some "dQw4w9WgXcQ" := by
  refine ⟨by decide, by decide, ?_⟩
  have h := (video_id_extraction "dQw4w9WgXcQ" "" (by decide) (by decide)).2
  simpa using h

/-- Claim C4 (confirmed): with at least two path segments, first segment
    `company` resolves to request type `company` with `private=false`, first
    segment `in` to request type `profile` with `private=true`, and any other
    first segment fails with the unsupported-type error; fewer than two
    segments fail with the malformed-URL error. -/
theorem linkedin_link_classification (link : String) :
    ((pathParts link).length < 2 →
      resolveLinkedin link = Except.error "Invalid LinkedIn URL.") ∧
    (∀ t i rest, pathParts link = t :: i :: rest →
      resolveLinkedin link =
        if t = "company" then Except.ok ("company", i, "false")
        else if t = "in" then Except.ok ("profile", i, "true")
        else Except.error "Unsupported LinkedIn link type.") := by
  constructor
  · intro h
    cases hp : pathParts link with
    | nil => simp [resolveLinkedin, hp]
    | cons a l =>
      cases l with
      | nil => simp [resolveLinkedin, hp]
      | cons b r => rw [hp] at h; simp at h; omega
  · intro t i rest hp
    simp [resolveLinkedin, hp]

/-- Witness for C4 on company, profile, unsupported and malformed links. -/
theorem linkedin_link_classification_witness :
    pathParts "https://linkedin.com/company/acme" = ["company", "acme"] ∧
    resolveLinkedin "https://linkedin.com/company/acme" =
      Except.ok ("company", "acme", "false") ∧
    pathParts "https://linkedin.com/in/janedoe" = ["in", "janedoe"] ∧
    resolveLinkedin "https://linkedin.com/in/janedoe" =
      Except.ok ("profile", "janedoe", "true") ∧
    pathParts "https://linkedin.com/school/foo" = ["school", "foo"] ∧
    resolveLinkedin "https://linkedin.com/school/foo" =
      Except.error "Unsupported LinkedIn link type." ∧
    (pathParts "https://linkedin.com").length < 2 ∧
    resolveLinkedin "https://linkedin.com" = Except.error "Invalid LinkedIn URL." := by
  have h1 : pathParts "https://linkedin.com/company/acme" = ["company", "acme"] := rfl
  have h2 : pathParts "https://linkedin.com/in/janedoe" = ["in", "janedoe"] := rfl
  have h3 : pathParts "https://linkedin.com/school/foo" = ["school", "foo"] := rfl
  have h4 : (pathParts "https://linkedin.com").length < 2 := by decide
  refine ⟨h1, ?_, h2, ?_, h3, ?_, h4, ?_⟩
  · exact ((linkedin_link_classification _).2 "company" "acme" [] h1).trans (by simp)
  · exact ((linkedin_link_classification _).2 "in" "janedoe" [] h2).trans (by simp)
  · exact ((linkedin_link_classification _).2 "school" "foo" [] h3).trans (by simp)
  · exact (linkedin_link_classification _).1 h4

/-- Claim C5 (confirmed): profile retrieval is one HTTP GET; a non-200
    status yields the failure string carrying the status code and the body,
    a 200 status yields the success rendering of the payload; with a stubbed
    provider returning 404 and body "not found", the company-link example
    yields an error string containing "404" and "not found". -/
theorem linkedin_http_statuses (key link rt lid priv body : String) (code : Nat)
    (hres : resolveLinkedin link = Except.ok (rt, lid, priv)) :
    (code ≠ 200 →
      analyze_linkedin (some key) (fun _ => Except.ok (code, body)) link =
        Except.ok ("Request failed. Status: " ++ toString code ++ ", Message: " ++ body)) ∧
    (analyze_linkedin (some key) (fun _ => Except.ok (200, body)) link =
      Except.ok ("LinkedIn Data:\n\n" ++ body)) ∧
    (analyze_linkedin (some key) (fun _ => Except.ok (404, "not found"))
        "https://linkedin.com/company/acme" =
      Except.ok "Request failed. Status: 404, Message: not found") ∧
    (∃ a b : String, "Request failed. Status: 404, Message: not found" = a ++ "404" ++ b) ∧
    (∃ a b : String, "Request failed. Status: 404, Message: not found" =
      a ++ "not found" ++ b) := by
  refine ⟨?_, ?_, rfl, ⟨"Request failed. Status: ", ", Message: not found", rfl⟩,
    ⟨"Request failed. Status: 404, Message: ", "", rfl⟩⟩
  · intro hc
    simp [analyze_linkedin, hres, hc]
  · simp [analyze_linkedin, hres]

/-- Witness for C5 at the spec's example link and stub. -/
theorem linkedin_http_statuses_witness :
    resolveLinkedin "https://linkedin.com/company/acme" =
      Except.ok ("company", "acme", "false") ∧
    analyze_linkedin (some "k") (fun _ => Except.ok (404, "not found"))
      "https://linkedin.com/company/acme" =
      Except.ok ("Request failed. Status: " ++ toString 404 ++ ", Message: " ++ "not found") := by
  have hres : resolveLinkedin "https://linkedin.com/company/acme" =
      Except.ok ("company", "acme", "false") := rfl
  exact ⟨hres,
    (linkedin_http_statuses "k" _ "company" "acme" "false" "not found" 404 hres).1 (by decide)⟩

/-- Claim C10 (confirmed): with no profile-data API key in the environment,
    `analyze_linkedin` returns the fixed message for every input link and
    every provider behaviour — the provider is never consulted and no other
    validation error can be observed. -/
theorem missing_api_key_short_circuit (http : HttpProvider) (link : String) :
    analyze_linkedin none http link =
      Except.ok "API key not found. Please check your .env file." := rfl

/-- Claim C1 counterexample: with a primary transcript fetch returning an
    empty fragment list, no secondary strategy is attempted and no failure is
    reported at all — the tool proceeds to the model and returns its answer,
    which carries no failure reason. -/
theorem empty_primary_no_fallback_cex :
    get_transcript_text (fun _ => Except.ok []) "dQw4w9WgXcQ" = "" ∧
    ask_youtube_question (fun _ => Except.ok []) (fun _ => Except.ok [])
      (fun hist _ => Except.ok (if hist = [] then "CONTEXT_OK" else "MODEL_ANSWER"))
      "https://youtu.be/dQw4w9WgXcQ" "q" = Except.ok "MODEL_ANSWER" ∧
    pyStartswith "MODEL_ANSWER" "[!]" = false :=
  ⟨rfl, rfl, rfl⟩

/-- Claim C1 (corrected): the video retriever has a single strategy.  When
    the primary transcript fetch throws, the retriever returns the failure
    message carrying that single recorded reason (no secondary strategy is
    attempted, so only one reason is ever recorded); when the primary fetch
    returns an empty list the retrieval yields the empty string, which is not
    reported as a failure. -/
theorem transcript_failure_single_reason (tp : TranscriptProvider) (vid e : String) :
    (tp vid = Except.error e →
      get_transcript_text tp vid = "[!] Transcript not available.\nReason: " ++ e) ∧
    (tp vid = Except.ok [] → get_transcript_text tp vid = "") := by
  constructor <;> intro h <;> simp [get_transcript_text, h, joinSep, pyStripChars]

/-- Witness for the corrected C1 at a throwing and an empty-returning stub. -/
theorem transcript_failure_single_reason_witness :
    get_transcript_text (fun _ => Except.error "no captions") "vid00000000" =
      "[!] Transcript not available.\nReason: " ++ "no captions" ∧
    get_transcript_text (fun _ => Except.ok []) "vid00000001" = "" :=
  ⟨(transcript_failure_single_reason (fun _ => Except.error "no captions")
      "vid00000000" "no captions").1 rfl,
   (transcript_failure_single_reason (fun _ => Except.ok [])
      "vid00000001" "unused").2 rfl⟩

/-- Claim C2 counterexample: `analyze_website` has no exception handler, so
    a throwing scrape provider propagates past the tool boundary instead of
    producing a returned string. -/
theorem website_tool_propagates_exception_cex :
    ¬ ∃ s : String,
      analyze_website (fun _ => Except.error "boom") (fun _ => Except.ok "answer")
        "https://example.com" "what" = Except.ok s :=
  fun ⟨_, hs⟩ => Except.noConfusion hs

/-- Claim C2 (corrected): only `structured_tool` catches every provider
    exception into a returned string.  `analyze_website` propagates a
    throwing scrape provider; `ask_youtube_question` propagates a throwing
    search provider on the query path and a throwing model provider on the
    analysis step, while its transcript-fetch step — the only guarded part
    of the video tool — converts a throwing transcript provider into a
    returned string even under a throwing model; `analyze_linkedin`
    propagates a throwing HTTP provider. -/
theorem tool_boundary_exception_behavior (e input url question : String) (llm : PromptLLM)
    (chatModel : LLMFun) :
    structured_tool (fun _ => Except.error e) input =
      Except.ok ("Error processing data: " ++ e) ∧
    (∃ s : String, structured_tool llm input = Except.ok s) ∧
    analyze_website (fun _ => Except.error e) llm url question = Except.error e ∧
    ask_youtube_question (fun _ => Except.error e) (fun _ => Except.ok []) chatModel
      "market analysis" question = Except.error e ∧
    ask_youtube_question (fun _ => Except.ok [])
      (fun _ => Except.ok [{ text := some "hello" }]) (fun _ _ => Except.error e)
      "https://youtu.be/dQw4w9WgXcQ" question = Except.error e ∧
    ask_youtube_question (fun _ => Except.ok []) (fun _ => Except.error e)
      (fun _ _ => Except.error e) "https://youtu.be/dQw4w9WgXcQ" question =
      Except.ok ("[!] Transcript not available.\nReason: " ++ e) ∧
    analyze_linkedin (some "k") (fun _ => Except.error e) "https://linkedin.com/in/x" =
      Except.error e := by
  refine ⟨rfl, ?_, rfl, rfl, rfl, rfl, rfl⟩
  cases hm : llm (structured_prompt input) with
  | ok r => exact ⟨r, by simp [structured_tool, hm]⟩
  | error err => exact ⟨"Error processing data: " ++ err, by simp [structured_tool, hm]⟩

/-- Claim C3 counterexample: a transcript whose fragments join and trim to
    the empty string is not treated as a failure — the tool proceeds to the
    analysis step with the empty content and returns the model's answer. -/
theorem empty_success_reaches_analysis_cex :
    get_transcript_text (fun _ => Except.ok [{ text := some "   " }]) "dQw4w9WgXcQ" = "" ∧
    ask_youtube_question (fun _ => Except.ok [])
      (fun _ => Except.ok [{ text := some "   " }])
      (fun hist _ => Except.ok (if hist = [] then "SEEDED" else "ANALYSIS_RESULT"))
      "https://youtu.be/dQw4w9WgXcQ" "q" = Except.ok "ANALYSIS_RESULT" :=
  ⟨rfl, rfl⟩

/-- Claim C3 (corrected): when the fetched transcript joins and trims to the
    empty string the retrieval is NOT treated as failure — the empty string
    carries no failure marker, and `ask_youtube_question` proceeds to the
    analysis step with the empty content. -/
theorem empty_transcript_not_failure (search : SearchProvider) (tp : TranscriptProvider)
    (llm : LLMFun) (q : String)
    (h : get_transcript_text tp "dQw4w9WgXcQ" = "") :
    ask_youtube_question search tp llm "https://youtu.be/dQw4w9WgXcQ" q =
      answer_about llm "" q := by
  have hu : pyStartswith "https://youtu.be/dQw4w9WgXcQ" "http" = true := rfl
  have hvid : extract_video_id "https://youtu.be/dQw4w9WgXcQ" = some "dQw4w9WgXcQ" := rfl
  have hemp : pyStartswith "" "[!]" = false := rfl
  simp [ask_youtube_question, hu, hvid, answer_with_video, h, hemp]

/-- Witness for the corrected C3 at a whitespace-only transcript stub. -/
theorem empty_transcript_not_failure_witness :
    get_transcript_text (fun _ => Except.ok [{ text := some " " }]) "dQw4w9WgXcQ" = "" ∧
    ask_youtube_question (fun _ => Except.ok [])
      (fun _ => Except.ok [{ text := some " " }])
      (fun hist _ => Except.ok (if hist = [] then "SEEDED2" else "EMPTY_CONTEXT_ANSWER"))
      "https://youtu.be/dQw4w9WgXcQ" "what" =
      answer_about
        (fun hist _ => Except.ok (if hist = [] then "SEEDED2" else "EMPTY_CONTEXT_ANSWER"))
        "" "what" :=
  ⟨rfl, empty_transcript_not_failure _ _ _ "what" rfl⟩

/-- Claim C7 (confirmed): end to end, the video question tool on the example
    short URL with a stubbed transcript provider returning "hello world" and
    a stubbed model whose second (answer) turn returns "It's about
    greetings." produces exactly that answer; the priming turn's response
    ("PRIMING_ACK") is discarded. -/
theorem youtube_end_to_end :
    ask_youtube_question (fun _ => Except.ok [])
      (fun _ => Except.ok [{ text := some "hello world" }])
      (fun hist _ => Except.ok (if hist = [] then "PRIMING_ACK" else "It's about greetings."))
      "https://youtu.be/dQw4w9WgXcQ" "What is this about?" =
    Except.ok "It's about greetings." := rfl

/-- Claim C8 counterexample: the missing-api-key error outcome of the
    LinkedIn tool is a plain sentence that neither carries the "[!] " marker
    nor has the "Error <code>: <body>" shape. -/
theorem error_marker_not_uniform_cex :
    analyze_linkedin none (fun _ => Except.ok (200, "ignored")) "https://linkedin.com/in/x" =
      Except.ok "API key not found. Please check your .env file." ∧
    pyStartswith "API key not found. Please check your .env file." "[!] " = false ∧
    pyStartswith "API key not found. Please check your .env file." "Error" = false :=
  ⟨rfl, rfl, rfl⟩

/-- Claim C8 (corrected): the error marker is per tool, not uniform.  The
    video tool's error outcomes are prefixed "[!] "; `structured_tool`'s
    caught-exception outcome is prefixed "Error processing data: "; the
    LinkedIn tool returns plain unmarked sentences (and a
    "Request failed. Status: <code>, Message: <body>" string for non-200
    responses). -/
theorem error_marker_per_tool (search : SearchProvider) (tp : TranscriptProvider)
    (llm : LLMFun) (e q input : String) :
    (ask_youtube_question search tp llm "http://x" q =
        Except.ok "[!] Could not extract video ID from URL." ∧
      pyStartswith "[!] Could not extract video ID from URL." "[!] " = true) ∧
    (get_transcript_text (fun _ => Except.error e) "vid" =
        "[!] Transcript not available.\nReason: " ++ e ∧
      pyStartswith ("[!] Transcript not available.\nReason: " ++ e) "[!] " = true) ∧
    (structured_tool (fun _ => Except.error e) input =
      Except.ok ("Error processing data: " ++ e)) ∧
    (analyze_linkedin none (fun _ => Except.ok (200, "x")) "https://linkedin.com/in/y" =
        Except.ok "API key not found. Please check your .env file." ∧
      pyStartswith "API key not found. Please check your .env file." "[!] " = false) :=
  ⟨⟨rfl, rfl⟩, ⟨rfl, rfl⟩, rfl, ⟨rfl, rfl⟩⟩

/-- Claim C9 (confirmed): transcript-retrieval failure is signalled in-band
    by the "[!]" prefix — `ask_youtube_question` returns the retrieved
    transcript text itself, skipping the analysis step (for every model
    provider), exactly when that text starts with "[!]"; otherwise it runs
    the two-turn analysis on it. -/
theorem inband_failure_marker (search : SearchProvider) (tp : TranscriptProvider)
    (llm : LLMFun) (url q vid : String)
    (hurl : pyStartswith url "http" = true)
    (hvid : extract_video_id url = some vid) :
    (pyStartswith (get_transcript_text tp vid) "[!]" = true →
      ask_youtube_question search tp llm url q = Except.ok (get_transcript_text tp vid)) ∧
    (pyStartswith (get_transcript_text tp vid) "[!]" = false →
      ask_youtube_question search tp llm url q =
        answer_about llm (get_transcript_text tp vid) q) := by
  constructor <;> intro h <;> simp [ask_youtube_question, hurl, hvid, answer_with_video, h]

/-- Witness for C9: a genuine transcript that happens to begin with "[!]" is
    returned raw, as if retrieval had failed, and the model is never asked. -/
theorem inband_failure_marker_witness :
    pyStartswith "https://youtu.be/dQw4w9WgXcQ" "http" = true ∧
    extract_video_id "https://youtu.be/dQw4w9WgXcQ" = some "dQw4w9WgXcQ" ∧
    pyStartswith
      (get_transcript_text (fun _ => Except.ok [{ text := some "[!] genuine content" }])
        "dQw4w9WgXcQ") "[!]" = true ∧
    ask_youtube_question (fun _ => Except.ok [])
      (fun _ => Except.ok [{ text := some "[!] genuine content" }])
      (fun _ _ => Except.ok "NEVER_USED") "https://youtu.be/dQw4w9WgXcQ" "q" =
      Except.ok "[!] genuine content" := by
  refine ⟨rfl, rfl, rfl, ?_⟩
  exact ((inband_failure_marker (fun _ => Except.ok [])
    (fun _ => Except.ok [{ text := some "[!] genuine content" }])
    (fun _ _ => Except.ok "NEVER_USED") "https://youtu.be/dQw4w9WgXcQ" "q" "dQw4w9WgXcQ"
    rfl rfl).1 rfl).trans rfl

end MarketAgent

